import Mathlib

/-!
Verification of the maps-area-insights backend: a shallow embedding of the
personalization, caching, validation and area-insights logic of the
repository, together with theorems settling the specification claims.

Conventions of the embedding:
- JS numbers that the code only compares and rounds are modelled as rationals;
  the per-place personalized score, which involves the natural logarithm, is a
  real number.
- Absent JS object fields are modelled as Option values.
- Dates are modelled as integer timestamps (milliseconds where the code
  subtracts dates, abstract naturals where it only stores them).
- Stateful storage (the Firestore-backed cache and preference store) is
  modelled by explicit state passing; a storage failure is a flag on the
  state, and the code paths that catch storage errors return their fallback.
-/

namespace AreaInsights

/-- A place record as returned by the external places provider
(googlePlacesService). Fields the scoring logic reads; rating, review count,
price level and business status may be absent. -/
structure Place where
  place_id : String
  rating : Option ℚ
  user_ratings_total : Option ℕ
  price_level : Option ℤ
  types : List String
  business_status : Option String
  deriving DecidableEq

/-- Interest to place-type mapping table from the PersonalizationService
constructor (this.interestMapping). -/
def interestMapping : String → Option (List String)
  | "food" => some ["restaurant", "cafe", "bakery", "meal_takeaway", "meal_delivery"]
  | "nightlife" => some ["night_club", "bar", "liquor_store"]
  | "culture" => some ["museum", "art_gallery", "library", "university"]
  | "history" => some ["tourist_attraction", "museum", "cemetery", "place_of_worship"]
  | "shopping" => some ["shopping_mall", "store", "clothing_store", "electronics_store"]
  | "entertainment" => some ["amusement_park", "movie_theater", "bowling_alley", "casino"]
  | "nature" => some ["park", "zoo", "aquarium", "campground"]
  | "fitness" => some ["gym", "spa", "stadium"]
  | "business" => some ["bank", "post_office", "city_hall", "courthouse"]
  | "health" => some ["hospital", "pharmacy", "doctor", "dentist"]
  | "travel" => some ["lodging", "travel_agency", "gas_station", "airport"]
  | "services" => some ["car_repair", "laundry", "hair_care", "beauty_salon"]
  | _ => none

/-- Per age group preference profile (this.ageGroupPreferences entries). -/
structure AgeGroupPref where
  priorityTypes : List String
  timePreference : String
  priceRange : String
  deriving DecidableEq

/-- Age group preference table from the PersonalizationService constructor. -/
def ageGroupPreferences : String → Option AgeGroupPref
  | "young" => some ⟨["night_club", "bar", "amusement_park", "shopping_mall"], "evening", "budget"⟩
  | "adult" => some ⟨["restaurant", "museum", "tourist_attraction", "park"], "flexible", "medium"⟩
  | "senior" => some ⟨["museum", "park", "restaurant", "library"], "morning", "comfortable"⟩
  | "family" => some ⟨["park", "zoo", "amusement_park", "restaurant"], "daytime", "family-friendly"⟩
  | _ => none

/-- The adult profile, the fallback the scoring code uses for an unknown
age group (ageGroupPreferences[g] or ageGroupPreferences.adult). -/
def adultAgeGroupPref : AgeGroupPref :=
  ⟨["restaurant", "museum", "tourist_attraction", "park"], "flexible", "medium"⟩

/-- A full preference record. userId and maxResults are optional because the
default record carries neither field. -/
structure Preferences where
  interests : List String
  ageGroup : String
  activityTypes : List String
  preferredEnvironment : String
  priceRange : String
  timePreference : String
  groupSize : String
  accessibilityNeeds : Bool
  createdAt : ℕ
  updatedAt : ℕ
  userId : Option String
  maxResults : Option ℕ
  deriving DecidableEq

/-- this.defaultPreferences of the PersonalizationService; t0 is the service
construction time stamped into createdAt and updatedAt. -/
def defaultPreferences (t0 : ℕ) : Preferences :=
  { interests := ["restaurant", "tourist_attraction", "shopping_mall"]
    ageGroup := "adult"
    activityTypes := ["sightseeing", "dining", "shopping"]
    preferredEnvironment := "mixed"
    priceRange := "medium"
    timePreference := "flexible"
    groupSize := "small"
    accessibilityNeeds := false
    createdAt := t0
    updatedAt := t0
    userId := none
    maxResults := none }

/-- Insert into a JS Set modelled as a duplicate-free list in insertion
order. -/
def setInsert (acc : List String) (t : String) : List String :=
  if t ∈ acc then acc else acc ++ [t]

/-- getRelevantPlaceTypes: each interest maps through interestMapping (an
unmapped interest passes through as itself) and the mapped types accumulate
into a Set, returned in insertion order. -/
def getRelevantPlaceTypes (interests : List String) : List String :=
  interests.foldl (fun acc i => ((interestMapping i).getD [i]).foldl setInsert acc) []

/-- The fixed price range index table of getPriceLevelScore
(const priceMapping). -/
def priceMapping : String → Option ℤ
  | "budget" => some 0
  | "low" => some 1
  | "medium" => some 2
  | "comfortable" => some 3
  | "luxury" => some 4
  | _ => none

/-- getPriceLevelScore. The JS lookup is priceMapping[userPriceRange] with a
falsy fallback of 2: an unknown range falls back to 2, and so does the value
0 stored for budget, because 0 is falsy in JS. The embedding keeps that
behavior exactly. -/
def getPriceLevelScore (priceLevel : ℤ) (userPriceRange : String) : ℤ :=
  let preferredLevel : ℤ :=
    match priceMapping userPriceRange with
    | some n => if n = 0 then 2 else n
    | none => 2
  let difference := |priceLevel - preferredLevel|
  max 0 (2 - difference)

/-- getEnvironmentScore. An absent rating compares as false in the JS
trending branch, which coincides with treating it as 0. -/
def getEnvironmentScore (place : Place) (preferredEnvironment : String) : ℚ :=
  let reviewCount := place.user_ratings_total.getD 0
  match preferredEnvironment with
  | "quiet" => if reviewCount < 100 then 2 else 0
  | "busy" => if 500 < reviewCount then 2 else 0
  | "trending" => if 4 < place.rating.getD 0 ∧ 200 < reviewCount then 3 else 0
  | "family-friendly" =>
      if place.types.contains "park" || place.types.contains "zoo" ||
          place.types.contains "amusement_park" then 2 else 0
  | _ => 1

/-- getTimeScore; hour is currentTime.getHours(). Any preference other than
the four named windows, in particular flexible, scores a flat 0.5. -/
def getTimeScore (hour : ℕ) (timePreference : String) : ℚ :=
  match timePreference with
  | "morning" => if 6 ≤ hour ∧ hour < 12 then 1 else 0
  | "afternoon" => if 12 ≤ hour ∧ hour < 17 then 1 else 0
  | "evening" => if 17 ≤ hour ∧ hour < 22 then 1 else 0
  | "night" => if 22 ≤ hour ∨ hour < 6 then 1 else 0
  | _ => 1/2

/-- The request context handed to personalizePlaces; currentTime is the
getHours() value of the current time when present. -/
structure Context where
  currentTime : Option ℕ
  deriving DecidableEq

/-- A place together with the personalization fields personalizePlaces
attaches to it. -/
structure ScoredPlace where
  place : Place
  personalizedScore : ℝ
  matchingInterests : List String
  ageGroupMatch : Bool

/-- The body of the map in personalizePlaces: score one place given the
precomputed relevant types and age group profile. The accumulation order of
the eight score terms follows the sequence of additions in the source. -/
noncomputable def scorePlace (relevantTypes : List String) (agp : AgeGroupPref)
    (prefs : Preferences) (ctx : Context) (place : Place) : ScoredPlace :=
  let rating : ℚ := place.rating.getD 0
  let reviewCount : ℕ := place.user_ratings_total.getD 0
  let matchingTypes := place.types.filter (fun t => relevantTypes.contains t)
  let ageGroupMatches := place.types.filter (fun t => agp.priorityTypes.contains t)
  let score : ℝ :=
    ((rating : ℝ) * 2)
      + min (Real.log ((reviewCount : ℝ) + 1)) 5
      + ((matchingTypes.length : ℝ) * 3)
      + ((ageGroupMatches.length : ℝ) * 2)
      + (match place.price_level with
          | some pl => ((getPriceLevelScore pl prefs.priceRange : ℤ) : ℝ)
          | none => 0)
      + ((getEnvironmentScore place prefs.preferredEnvironment : ℚ) : ℝ)
      + (match ctx.currentTime with
          | some hour => ((getTimeScore hour prefs.timePreference : ℚ) : ℝ)
          | none => 0)
      + (if place.business_status = some "OPERATIONAL" then 1 else 0)
  { place := place
    personalizedScore := score
    matchingInterests := matchingTypes
    ageGroupMatch := decide (0 < ageGroupMatches.length) }

/-- The result cap: userPreferences.maxResults with a falsy fallback of 15
(an absent field and the value 0 both fall back). -/
def maxResultsCap (prefs : Preferences) : ℕ :=
  match prefs.maxResults with
  | some 0 => 15
  | some n => n
  | none => 15

/-- The sort order of personalizePlaces: the JS comparator
(a, b) => b.personalizedScore - a.personalizedScore sorts by descending
score, and the JS sort is stable. -/
def scoreDescOrder (a b : ScoredPlace) : Prop :=
  b.personalizedScore ≤ a.personalizedScore

noncomputable instance : DecidableRel scoreDescOrder :=
  fun a b => Real.decidableLE b.personalizedScore a.personalizedScore

instance : IsTotal ScoredPlace scoreDescOrder :=
  ⟨fun a b => le_total b.personalizedScore a.personalizedScore⟩

instance : IsTrans ScoredPlace scoreDescOrder :=
  ⟨fun _ _ _ hab hbc => le_trans hbc hab⟩

/-- The scored list of personalizePlaces before filtering: each place scored
with the relevant types and age group profile resolved once from the
preferences. -/
noncomputable def scoredPlacesOf (places : List Place) (prefs : Preferences)
    (ctx : Context) : List ScoredPlace :=
  places.map
    (scorePlace (getRelevantPlaceTypes prefs.interests)
      ((ageGroupPreferences prefs.ageGroup).getD adultAgeGroupPref) prefs ctx)

/-- The filter step of personalizePlaces: keep places with score strictly
above the minimum relevance threshold of 2. -/
noncomputable def filteredScoredPlaces (places : List Place) (prefs : Preferences)
    (ctx : Context) : List ScoredPlace :=
  (scoredPlacesOf places prefs ctx).filter (fun p => decide (2 < p.personalizedScore))

/-- The sort step of personalizePlaces: stable descending sort by score. -/
noncomputable def sortedScoredPlaces (places : List Place) (prefs : Preferences)
    (ctx : Context) : List ScoredPlace :=
  (filteredScoredPlaces places prefs ctx).insertionSort scoreDescOrder

/-- personalizePlaces: score, filter by the threshold, sort descending by
score (stable), and truncate to the configured cap. The try/catch fallback
path of the source is unreachable here because the embedded operations are
total. -/
noncomputable def personalizePlaces (places : List Place) (prefs : Preferences)
    (ctx : Context) : List ScoredPlace :=
  (sortedScoredPlaces places prefs ctx).take (maxResultsCap prefs)

/-- The per-place score exactly as the claim states it: rating times 2, the
capped damped review term, 3 per tag in the intersection with the relevant
tags, 2 per tag in the intersection with the age-group priority tags, the
price-level score when a price level exists, the environment score, the time
score of the current hour, and 1 for an operational business status. Written
from the specification wording, for comparison with scorePlace. -/
noncomputable def specPlaceScore (prefs : Preferences) (hour : ℕ) (place : Place) : ℝ :=
  ((place.rating.getD 0 : ℚ) : ℝ) * 2
    + min (Real.log (((place.user_ratings_total.getD 0 : ℕ) : ℝ) + 1)) 5
    + 3 * ((place.types.filter
        (fun t => (getRelevantPlaceTypes prefs.interests).contains t)).length : ℝ)
    + 2 * ((place.types.filter
        (fun t => ((ageGroupPreferences prefs.ageGroup).getD
          adultAgeGroupPref).priorityTypes.contains t)).length : ℝ)
    + (match place.price_level with
        | some pl => ((getPriceLevelScore pl prefs.priceRange : ℤ) : ℝ)
        | none => 0)
    + ((getEnvironmentScore place prefs.preferredEnvironment : ℚ) : ℝ)
    + ((getTimeScore hour prefs.timePreference : ℚ) : ℝ)
    + (if place.business_status = some "OPERATIONAL" then 1 else 0)

/-- The fixed ordered priority list of getPrimaryPlaceType. -/
def primaryTypesList : List String :=
  ["restaurant", "tourist_attraction", "shopping_mall", "museum",
   "park", "night_club", "bar", "cafe", "amusement_park"]

/-- The for loop of getPrimaryPlaceType: return the first entry of the
priority list that occurs among the tags. -/
def firstMatching : List String → List String → Option String
  | [], _ => none
  | p :: rest, ts => if ts.contains p then some p else firstMatching rest ts

/-- getPrimaryPlaceType: first priority type present among the tags, else
types[0] with a falsy fallback of the string establishment (an empty tag
list, and an empty first tag, both fall back). -/
def getPrimaryPlaceType (types : List String) : String :=
  match firstMatching primaryTypesList types with
  | some t => t
  | none =>
    match types with
    | [] => "establishment"
    | t :: _ => if t = "" then "establishment" else t

/-! ### Preference store (getUserPreferences, saveUserPreferences and the
PUT controller flow updateUserPreferences) -/

/-- A partial preference update: each field is present or absent, matching
the keys of the JS object spread into the save. -/
structure PrefsUpdate where
  interests : Option (List String)
  ageGroup : Option String
  activityTypes : Option (List String)
  preferredEnvironment : Option String
  priceRange : Option String
  timePreference : Option String
  groupSize : Option String
  accessibilityNeeds : Option Bool
  createdAt : Option ℕ
  updatedAt : Option ℕ
  maxResults : Option ℕ
  deriving DecidableEq

/-- The JS object spread of a partial update over a full base record
({...base, ...p}): each present field of p overrides the base. The userId
key is never carried by an update in these flows (the save sets it
explicitly afterwards), so it stays the base value here. -/
def mergeOver (base : Preferences) (p : PrefsUpdate) : Preferences :=
  { interests := p.interests.getD base.interests
    ageGroup := p.ageGroup.getD base.ageGroup
    activityTypes := p.activityTypes.getD base.activityTypes
    preferredEnvironment := p.preferredEnvironment.getD base.preferredEnvironment
    priceRange := p.priceRange.getD base.priceRange
    timePreference := p.timePreference.getD base.timePreference
    groupSize := p.groupSize.getD base.groupSize
    accessibilityNeeds := p.accessibilityNeeds.getD base.accessibilityNeeds
    createdAt := p.createdAt.getD base.createdAt
    updatedAt := p.updatedAt.getD base.updatedAt
    userId := base.userId
    maxResults :=
      match p.maxResults with
      | some n => some n
      | none => base.maxResults }

/-- View a full record as a partial update carrying every field (the shape
the update controller passes on to the save). -/
def toUpdate (r : Preferences) : PrefsUpdate :=
  { interests := some r.interests
    ageGroup := some r.ageGroup
    activityTypes := some r.activityTypes
    preferredEnvironment := some r.preferredEnvironment
    priceRange := some r.priceRange
    timePreference := some r.timePreference
    groupSize := some r.groupSize
    accessibilityNeeds := some r.accessibilityNeeds
    createdAt := some r.createdAt
    updatedAt := some r.updatedAt
    maxResults := r.maxResults }

/-- getUserPreferences: the stored document merged over the defaults, or the
defaults when the user has no document (or on storage failure). This backend
only ever persists full records, so the stored document is modelled as a
full record and merging it over the defaults reproduces it. -/
def getUserPreferences (t0 : ℕ) (stored : Option Preferences) : Preferences :=
  match stored with
  | none => defaultPreferences t0
  | some s => s

/-- saveUserPreferences: spread the given update over the DEFAULT record
(not over the stored one), set userId, stamp updatedAt with the save time
and keep a provided createdAt (falling back to the save time), then persist
with a field-merging set. t0 is the service construction time baked into the
default record. -/
def saveUserPreferences (t0 : ℕ) (userId : String) (p : PrefsUpdate) (now : ℕ) :
    Preferences :=
  let merged := mergeOver (defaultPreferences t0) p
  { merged with
      userId := some userId
      updatedAt := now
      createdAt := p.createdAt.getD now }

/-- The Firestore set with merge of the save: every standard preference
field plus userId is present in the written record (the defaults are spread
into it), so those fields of the stored document are replaced; the optional
maxResults key is written only when the save carries it, and is otherwise
kept from the stored document. -/
def storeAfterSet (stored : Option Preferences) (written : Preferences) :
    Option Preferences :=
  some
    { written with
        maxResults :=
          match written.maxResults with
          | some n => some n
          | none => (stored.map Preferences.maxResults).getD none }

/-- The PUT controller flow updateUserPreferences: fetch the existing record,
spread the partial update over it stamping updatedAt with the merge time,
then run the full merged record through saveUserPreferences at the save
time. Returns the record the save returns and the stored document after the
write. -/
def updateUserPreferences (t0 : ℕ) (userId : String) (stored : Option Preferences)
    (p : PrefsUpdate) (now1 now2 : ℕ) : Preferences × Option Preferences :=
  let existing := getUserPreferences t0 stored
  let merged := { mergeOver existing p with updatedAt := now1 }
  let saved := saveUserPreferences t0 userId (toUpdate merged) now2
  (saved, storeAfterSet stored saved)

/-- A partial update carrying only an age group. -/
def ageOnlyUpdate (g : String) : PrefsUpdate :=
  { interests := none, ageGroup := some g, activityTypes := none
    preferredEnvironment := none, priceRange := none, timePreference := none
    groupSize := none, accessibilityNeeds := none, createdAt := none
    updatedAt := none, maxResults := none }

/-! ### Geo cache (firebaseService: generateCacheKey, getCachedAreaData,
cacheAreaData) -/

/-- A cached area document: the payload plus the bookkeeping fields the
cache writes. Times are millisecond timestamps. -/
structure CacheEntry (α : Type) where
  areaData : α
  cachedAt : ℤ
  accessCount : ℕ
  lastAccessed : ℤ
  deriving DecidableEq

/-- The cache collection: documents keyed by string, plus a flag modelling
an unreachable or erroring store (every operation on a broken store throws
in the source and is caught). -/
structure CacheStore (α : Type) where
  entries : List (String × CacheEntry α)
  broken : Bool
  deriving DecidableEq

/-- Document lookup by key. -/
def findEntry {α : Type} (st : CacheStore α) (key : String) : Option (CacheEntry α) :=
  (st.entries.find? (fun kv => kv.fst == key)).map (fun kv => kv.snd)

/-- Delete the document at a key. -/
def eraseEntry {α : Type} (st : CacheStore α) (key : String) : CacheStore α :=
  { st with entries := st.entries.filter (fun kv => !(kv.fst == key)) }

/-- The maximum cache age in milliseconds: cacheTTL hours converted
(this.cacheTTL * 60 * 60 * 1000). The source default for cacheTTL is 24. -/
def cacheMaxAgeMs (ttlHours : ℕ) : ℤ :=
  (ttlHours : ℤ) * 60 * 60 * 1000

/-- getCachedAreaData: absent document gives null; a document older than the
TTL is deleted and null returned; otherwise the payload is returned. Any
storage failure is caught and gives null. Returns the payload (if any) and
the store after the side effects. -/
def getCachedAreaData {α : Type} (ttlHours : ℕ) (st : CacheStore α) (key : String)
    (now : ℤ) : Option α × CacheStore α :=
  if st.broken then (none, st)
  else
    match findEntry st key with
    | none => (none, st)
    | some entry =>
      if cacheMaxAgeMs ttlHours < now - entry.cachedAt then (none, eraseEntry st key)
      else (some entry.areaData, st)

/-- cacheAreaData: overwrite (or create) the document at the key with the
payload, the write time and an access count of 1. A storage failure is
caught and the write is lost without failing the caller. -/
def cacheAreaData {α : Type} (st : CacheStore α) (key : String) (v : α) (now : ℤ) :
    CacheStore α :=
  if st.broken then st
  else
    { st with
        entries :=
          (key, ⟨v, now, 1, now⟩) :: st.entries.filter (fun kv => !(kv.fst == key)) }

/-- JS Math.round: round half toward positive infinity. -/
def jsRound (x : ℚ) : ℤ :=
  ⌊x + 1/2⌋

/-- generateCacheKey: latitude and longitude rounded to three decimal
degrees (Math.round(x * 1000) / 1000) plus the radius. The source renders
the triple as the string lat_lng_radius; two keys are equal exactly when
the rounded triples are, so the key is modelled as the triple. The source
default radius is 3000. -/
def generateCacheKey (coords : ℚ × ℚ) (radius : ℤ) : ℚ × ℚ × ℤ :=
  ((jsRound (coords.1 * 1000) : ℚ) / 1000, (jsRound (coords.2 * 1000) : ℚ) / 1000, radius)

/-! ### Places lookup adapter (googlePlacesService.getAreaInsights) -/

/-- The bundle getAreaInsights assembles from the five settled category
searches. -/
structure AreaBundle where
  landmarks : List Place
  restaurants : List Place
  attractions : List Place
  entertainment : List Place
  shopping : List Place
  coordinates : ℚ × ℚ
  searchRadius : ℕ
  deriving DecidableEq

/-- processResult inside getAreaInsights: a fulfilled category search is
truncated to its first 10 provider results in provider order; a rejected
one is replaced by the empty list. -/
def processResult (r : Except String (List Place)) : List Place :=
  match r with
  | Except.ok l => l.take 10
  | Except.error _ => []

/-- getAreaInsights: the five category searches are issued concurrently and
joined with Promise.allSettled, modelled by the vector of settled outcomes;
allSettled never rejects, so the bundle is always assembled and the function
only propagates an error thrown elsewhere, which the settled vector model
rules out. -/
def getAreaInsights (coords : ℚ × ℚ) (radius : ℕ)
    (landmarks restaurants attractions entertainment shopping :
      Except String (List Place)) : Except String AreaBundle :=
  Except.ok
    { landmarks := processResult landmarks
      restaurants := processResult restaurants
      attractions := processResult attractions
      entertainment := processResult entertainment
      shopping := processResult shopping
      coordinates := coords
      searchRadius := radius }

/-! ### Request validation (areaInsightsController.validateRequest) -/

/-- A JS number: an ordinary (finite) numeric value or NaN. Comparisons
against NaN are always false in JS. Infinities behave like out-of-range
values for these checks and are not modelled separately. -/
inductive JSNumber where
  | nan : JSNumber
  | fin : ℚ → JSNumber
  deriving DecidableEq

/-- A present JS field: of number type, or of any other type (string, null,
object, undefined property, ...). -/
inductive JSField where
  | number : JSNumber → JSField
  | notNumber : JSField
  deriving DecidableEq

/-- The JS comparison x less-than q for a field already known to be of
number type. -/
def jsLt : JSNumber → ℚ → Bool
  | JSNumber.nan, _ => false
  | JSNumber.fin x, q => decide (x < q)

/-- The JS comparison x greater-than q. -/
def jsGt : JSNumber → ℚ → Bool
  | JSNumber.nan, _ => false
  | JSNumber.fin x, q => decide (q < x)

/-- The coords object of the request body. -/
structure CoordsBody where
  lat : JSField
  lng : JSField
  deriving DecidableEq

/-- A request body: the coords key may be absent. The whole body may also be
absent (the outermost none). -/
structure RequestBody where
  coords : Option CoordsBody
  deriving DecidableEq

/-- validateRequest, reduced to its isValid result: body and coords must be
present, lat and lng must be of number type, and the range checks reject
when lat is less than -90 or greater than 90, or lng less than -180 or
greater than 180. -/
def validateRequest : Option RequestBody → Bool
  | none => false
  | some body =>
    match body.coords with
    | none => false
    | some coords =>
      match coords.lat, coords.lng with
      | JSField.number la, JSField.number lo =>
        if jsLt la (-90) || jsGt la 90 then false
        else if jsLt lo (-180) || jsGt lo 180 then false
        else true
      | _, _ => false

/-- The acceptance set exactly as the claim words it (for comparison with
validateRequest): numeric coordinates with latitude in the closed interval
from -90 to 90 and longitude in the closed interval from -180 to 180. NaN
is of number type in JS but lies in no interval, so it is not accepted
here. -/
def claimedValidCoordinate : Option RequestBody → Bool
  | some body =>
    match body.coords with
    | some ⟨JSField.number (JSNumber.fin la), JSField.number (JSNumber.fin lo)⟩ =>
      decide (-90 ≤ la ∧ la ≤ 90 ∧ -180 ≤ lo ∧ lo ≤ 180)
    | _ => false
  | none => false

/-! ### Hourly activity curve (areaInsightsController.generateHourlyActivity) -/

/-- One point of the synthetic hourly activity curve. -/
structure HourActivity where
  hour : ℕ
  activityLevel : ℕ
  deriving DecidableEq

/-- calculateHourlyActivity: a base of 30 plus fixed time-of-day bands, plus
dining and nightlife adjustments from the place tags, clamped into
[10, 100]. -/
def calculateHourlyActivity (hour : ℕ) (places : List Place) : ℕ :=
  let base1 := 30 + (if 9 ≤ hour ∧ hour ≤ 21 then 40 else 0)
  let base2 := base1 + (if 12 ≤ hour ∧ hour ≤ 14 then 20 else 0)
  let base3 := base2 + (if 18 ≤ hour ∧ hour ≤ 20 then 30 else 0)
  let hasRestaurants := places.any (fun p => p.types.contains "restaurant")
  let hasNightlife :=
    places.any (fun p => p.types.contains "night_club" || p.types.contains "bar")
  let base4 := base3 +
    (if hasRestaurants ∧ (hour = 12 ∨ hour = 13 ∨ (18 ≤ hour ∧ hour ≤ 20))
      then 15 else 0)
  let base5 := base4 + (if hasNightlife ∧ 21 ≤ hour then 25 else 0)
  min 100 (max 10 base5)

/-- generateHourlyActivity: one entry per hour 0 through 23, in order. -/
def generateHourlyActivity (places : List Place) : List HourActivity :=
  (List.range 24).map (fun hour => ⟨hour, calculateHourlyActivity hour places⟩)

/-! ### Concrete fixtures used by witnesses and counterexamples -/

/-- The place of the specification scenario: rating 4.8, 1000 reviews,
tagged restaurant, no price level, no business status. -/
def demoPlace : Place :=
  { place_id := "p1", rating := some (24/5), user_ratings_total := some 1000
    price_level := none, types := ["restaurant"], business_status := none }

/-- A user whose only stated preference difference from the defaults is the
interest list with the single entry food. -/
def foodPrefs : Preferences :=
  { defaultPreferences 0 with interests := ["food"] }

/-- A context whose current hour is 12. -/
def ctx12 : Context :=
  ⟨some 12⟩

/-- An existing stored preference record with a non-default interest list. -/
def exRecord : Preferences :=
  { interests := ["culture"], ageGroup := "adult", activityTypes := ["sightseeing"]
    preferredEnvironment := "quiet", priceRange := "low", timePreference := "morning"
    groupSize := "small", accessibilityNeeds := false, createdAt := 1, updatedAt := 2
    userId := some "u", maxResults := none }

/-- A request body whose latitude is NaN and whose longitude is 0. -/
def nanBody : Option RequestBody :=
  some ⟨some ⟨JSField.number JSNumber.nan, JSField.number (JSNumber.fin 0)⟩⟩

/-! ### Helper lemmas -/

/-- If t is a priority entry occurring among the tags with the least index
among all occurring priority entries, the loop returns t. -/
lemma firstMatching_eq_of_first {l ts : List String} {t : String}
    (htl : t ∈ l) (hts : t ∈ ts)
    (hmin : ∀ u, u ∈ l → u ∈ ts → l.indexOf t ≤ l.indexOf u) :
    firstMatching l ts = some t := by
  induction l with
  | nil => cases htl
  | cons p rest ih =>
    by_cases hp : ts.contains p
    · have hpts : p ∈ ts := by simpa using hp
      have h0 : List.indexOf t (p :: rest) ≤ List.indexOf p (p :: rest) :=
        hmin p (List.mem_cons_self p rest) hpts
      rw [List.indexOf_cons_self] at h0
      have hz : List.indexOf t (p :: rest) = 0 := Nat.le_zero.mp h0
      by_cases htp : t = p
      · subst htp
        simp only [firstMatching]
        rw [if_pos hp]
      · exfalso
        rw [List.indexOf_cons_ne _ (fun he => htp he.symm)] at hz
        exact Nat.succ_ne_zero _ hz
    · have hpts : p ∉ ts := by simpa using hp
      have htp : t ≠ p := fun he => hpts (he ▸ hts)
      have htrest : t ∈ rest := by
        rcases List.mem_cons.mp htl with h1 | h1
        · exact absurd h1 htp
        · exact h1
      have hmin2 : ∀ u, u ∈ rest → u ∈ ts → rest.indexOf t ≤ rest.indexOf u := by
        intro u hu hu2
        have hup : u ≠ p := fun he => hpts (he ▸ hu2)
        have hh := hmin u (List.mem_cons_of_mem _ hu) hu2
        rw [List.indexOf_cons_ne _ (fun he => htp he.symm),
          List.indexOf_cons_ne _ (fun he => hup he.symm)] at hh
        exact Nat.succ_le_succ_iff.mp hh
      simp only [firstMatching]
      rw [if_neg hp]
      exact ih htrest hmin2

/-- When no entry of the priority list occurs among the tags, the loop
returns nothing. -/
lemma firstMatching_eq_none {l ts : List String}
    (h : ∀ t, t ∈ l → t ∉ ts) :
    firstMatching l ts = none := by
  induction l with
  | nil => rfl
  | cons p rest ih =>
    have hp : ¬ (ts.contains p = true) := by
      simpa using h p (List.mem_cons_self p rest)
    simp only [firstMatching]
    rw [if_neg hp]
    exact ih (fun t ht => h t (List.mem_cons_of_mem _ ht))

/-- validateRequest on two finite numeric coordinates, reduced to the four
range comparisons. -/
lemma validateRequest_fin (la lo : ℚ) :
    validateRequest (some ⟨some ⟨JSField.number (JSNumber.fin la),
        JSField.number (JSNumber.fin lo)⟩⟩) =
      (!(decide (la < -90) || decide (90 < la)) &&
        !(decide (lo < -180) || decide (180 < lo))) := by
  simp only [validateRequest, jsLt, jsGt]
  by_cases h1 : la < -90 <;> by_cases h2 : 90 < la <;>
    by_cases h3 : lo < -180 <;> by_cases h4 : 180 < lo <;>
      simp [h1, h2, h3, h4]

/-- The score the map body of personalizePlaces computes coincides with the
formula of the specification when the context carries a current hour. -/
lemma scorePlace_eq_specPlaceScore (prefs : Preferences) (ctx : Context) (hour : ℕ)
    (place : Place) (h : ctx.currentTime = some hour) :
    (scorePlace (getRelevantPlaceTypes prefs.interests)
        ((ageGroupPreferences prefs.ageGroup).getD adultAgeGroupPref)
        prefs ctx place).personalizedScore = specPlaceScore prefs hour place := by
  simp only [scorePlace, specPlaceScore, h]
  ring

/-- The natural logarithm of 1001 exceeds 5, so the damped review term of a
place with 1000 reviews is capped at exactly 5. -/
lemma five_le_log_1001 : (5 : ℝ) ≤ Real.log 1001 := by
  rw [Real.le_log_iff_exp_le (by norm_num : (0 : ℝ) < 1001)]
  have h5 : Real.exp 5 = Real.exp 1 ^ (5 : ℕ) := by
    rw [← Real.exp_nat_mul]
    norm_num
  rw [h5]
  calc
    Real.exp 1 ^ (5 : ℕ) ≤ (2.7182818286 : ℝ) ^ (5 : ℕ) :=
      pow_le_pow_left₀ (Real.exp_pos 1).le Real.exp_one_lt_d9.le 5
    _ ≤ 1001 := by norm_num

/-! ### Claim theorems -/

/-- C1: personalizePlaces assigns each place the claimed sum of the eight
score terms (every element of its output is the scored image of an input
place, and the score of that image equals the specification formula when the
context carries a current hour); in particular the place with rating 4.8,
1000 reviews and the tag restaurant reaches at least 17.6 for a user whose
interests are exactly food. -/
theorem c1_personalized_score_formula :
    (∀ (prefs : Preferences) (ctx : Context) (hour : ℕ) (place : Place),
        ctx.currentTime = some hour →
        (scorePlace (getRelevantPlaceTypes prefs.interests)
            ((ageGroupPreferences prefs.ageGroup).getD adultAgeGroupPref)
            prefs ctx place).personalizedScore = specPlaceScore prefs hour place)
  ∧ (∀ (places : List Place) (prefs : Preferences) (ctx : Context)
        (q : ScoredPlace), q ∈ personalizePlaces places prefs ctx →
        ∃ place, place ∈ places ∧
          q = scorePlace (getRelevantPlaceTypes prefs.interests)
              ((ageGroupPreferences prefs.ageGroup).getD adultAgeGroupPref)
              prefs ctx place)
  ∧ (scorePlace (getRelevantPlaceTypes foodPrefs.interests)
        ((ageGroupPreferences foodPrefs.ageGroup).getD adultAgeGroupPref)
        foodPrefs ctx12 demoPlace).personalizedScore = specPlaceScore foodPrefs 12 demoPlace
  ∧ (17.6 : ℝ) ≤ specPlaceScore foodPrefs 12 demoPlace := by
  refine ⟨scorePlace_eq_specPlaceScore, ?_,
    scorePlace_eq_specPlaceScore foodPrefs ctx12 12 demoPlace rfl, ?_⟩
  · intro places prefs ctx q hq
    have h1 : q ∈ sortedScoredPlaces places prefs ctx := List.mem_of_mem_take hq
    have h2 : q ∈ (scoredPlacesOf places prefs ctx).filter
        (fun p => decide (2 < p.personalizedScore)) :=
      (List.mem_insertionSort scoreDescOrder).mp h1
    have h3 : q ∈ scoredPlacesOf places prefs ctx := List.mem_of_mem_filter h2
    obtain ⟨place, hin, heq⟩ := List.mem_map.mp h3
    exact ⟨place, hin, heq.symm⟩
  · have hcast : (((1000 : ℕ) : ℝ) + 1) = 1001 := by norm_num
    have h3 : ((demoPlace.types.filter
        (fun t => (getRelevantPlaceTypes foodPrefs.interests).contains t)).length) = 1 :=
      rfl
    have h4 : ((demoPlace.types.filter
        (fun t => ((ageGroupPreferences foodPrefs.ageGroup).getD
          adultAgeGroupPref).priorityTypes.contains t)).length) = 1 := rfl
    have h6 : getEnvironmentScore demoPlace foodPrefs.preferredEnvironment = 1 := rfl
    have h7 : getTimeScore 12 foodPrefs.timePreference = 1/2 := rfl
    have hmin : min (Real.log (((demoPlace.user_ratings_total.getD 0 : ℕ) : ℝ) + 1)) 5
        = 5 := by
      refine min_eq_right ?_
      have hrc : ((demoPlace.user_ratings_total.getD 0 : ℕ) : ℝ) + 1 = 1001 := by
        norm_num [demoPlace]
      rw [hrc]
      exact five_le_log_1001
    simp only [specPlaceScore, h3, h4, h6, h7, hmin]
    have hrat : (demoPlace.rating.getD 0 : ℚ) = 24/5 := rfl
    have hpl : demoPlace.price_level = none := rfl
    have hbs : demoPlace.business_status = none := rfl
    rw [hrat, hpl, hbs]
    push_cast
    norm_num

/-- C2: the personalized list is truncated to the configured cap (15 when no
cap is configured), is sorted by nonincreasing score, keeps only scores
strictly above 2, is the stable descending sort of the filtered scored list
(every already-nonincreasing sublist of the filtered list, in particular any
group of tied elements in input order, survives as a sublist of the sorted
list), and is a deterministic function of its inputs. -/
theorem c2_personalize_output_shape (places : List Place) (prefs : Preferences)
    (ctx : Context) :
    (personalizePlaces places prefs ctx).length ≤ maxResultsCap prefs
  ∧ (prefs.maxResults = none → maxResultsCap prefs = 15)
  ∧ (personalizePlaces places prefs ctx).Pairwise scoreDescOrder
  ∧ (∀ q ∈ personalizePlaces places prefs ctx, 2 < q.personalizedScore)
  ∧ (∀ c : List ScoredPlace, c.Pairwise scoreDescOrder →
      List.Sublist c (filteredScoredPlaces places prefs ctx) →
      List.Sublist c (sortedScoredPlaces places prefs ctx))
  ∧ personalizePlaces places prefs ctx =
      ((filteredScoredPlaces places prefs ctx).insertionSort scoreDescOrder).take
        (maxResultsCap prefs) := by
  have hs : (sortedScoredPlaces places prefs ctx).Pairwise scoreDescOrder :=
    List.sorted_insertionSort scoreDescOrder _
  refine ⟨?_, ?_, ?_, ?_, ?_, rfl⟩
  · simp only [personalizePlaces, List.length_take]
    exact min_le_left _ _
  · intro h
    simp [maxResultsCap, h]
  · exact List.Pairwise.sublist (List.take_sublist _ _) hs
  · intro q hq
    have h1 : q ∈ sortedScoredPlaces places prefs ctx := List.mem_of_mem_take hq
    have h2 : q ∈ (scoredPlacesOf places prefs ctx).filter
        (fun p => decide (2 < p.personalizedScore)) :=
      (List.mem_insertionSort scoreDescOrder).mp h1
    have h4 := List.of_mem_filter h2
    exact of_decide_eq_true h4
  · intro c hp hsub
    exact List.sublist_insertionSort hp hsub

/-- C3: the claim says the price score uses index 0 for budget; the code
maps budget to index 2, because the stored index 0 is falsy and the JS
fallback replaces it. At price level 0 with range budget the code yields 0
while the claimed formula yields 2, and the code treats budget exactly like
medium at every price level. -/
theorem c3_price_level_budget_bug :
    getPriceLevelScore 0 "budget" = 0
  ∧ priceMapping "budget" = some 0
  ∧ max 0 (2 - |(0 : ℤ) - 0|) = 2
  ∧ getPriceLevelScore 0 "budget" ≠ max 0 (2 - |(0 : ℤ) - 0|)
  ∧ (∀ pl : ℤ, getPriceLevelScore pl "budget" = getPriceLevelScore pl "medium") := by
  refine ⟨?_, rfl, ?_, ?_, fun pl => rfl⟩
  · norm_num [getPriceLevelScore, priceMapping]
  · norm_num
  · norm_num [getPriceLevelScore, priceMapping]

/-- C7 counterexample: the latitudes 0.0004 and 0.0006 differ by less than
the claimed 0.0005 tolerance (longitudes equal, same radius), yet they round
to different milli-degrees and generateCacheKey gives different keys. -/
theorem c7_counterexample_nearby_coords_different_key :
    |(6/10000 : ℚ) - 4/10000| < 5/10000
  ∧ |(0 : ℚ) - 0| < 5/10000
  ∧ generateCacheKey (4/10000, 0) 3000 ≠ generateCacheKey (6/10000, 0) 3000 := by
  refine ⟨by norm_num [abs_lt], by norm_num, ?_⟩
  norm_num [generateCacheKey, jsRound, Prod.ext_iff]

/-- C7 amended: two coordinates whose latitudes and longitudes round to the
same milli-degree (in particular, any two coordinates in the same 0.001
degree rounding cell) produce the same cache key at a fixed radius, and the
key is exactly the rounded coordinate paired with the radius. -/
theorem c7_cache_key_amended (a b : ℚ × ℚ) (r : ℤ)
    (hlat : jsRound (a.1 * 1000) = jsRound (b.1 * 1000))
    (hlng : jsRound (a.2 * 1000) = jsRound (b.2 * 1000)) :
    generateCacheKey a r = generateCacheKey b r
  ∧ generateCacheKey a r =
      ((jsRound (a.1 * 1000) : ℚ) / 1000, (jsRound (a.2 * 1000) : ℚ) / 1000, r) := by
  refine ⟨?_, rfl⟩
  simp [generateCacheKey, hlat, hlng]

/-- C7 amended, witness: 0.0001 and 0.0004 degrees latitude round to the
same milli-degree and share the key. -/
theorem c7_cache_key_amended_witness :
    generateCacheKey (1/10000, 0) 3000 = generateCacheKey (4/10000, 0) 3000 :=
  (c7_cache_key_amended (1/10000, 0) (4/10000, 0) 3000
    (by norm_num [jsRound]) (by norm_num [jsRound])).1

/-- C8 counterexample: a request with latitude NaN and longitude 0 is of
number type and passes validateRequest, because both range comparisons are
false for NaN; but NaN lies in no closed interval, so the body is not in the
acceptance set the claim states. -/
theorem c8_counterexample_nan_accepted :
    validateRequest nanBody = true ∧ claimedValidCoordinate nanBody = false := by
  constructor
  · norm_num [validateRequest, nanBody, jsLt, jsGt]
  · rfl

/-- C8 amended: for finite numeric coordinates the validator accepts exactly
the closed intervals (90.0001 rejected, the corner 90, 180 accepted), a
missing body, missing coords or non-number coordinate is rejected, but a NaN
coordinate is also of number type and is accepted since every NaN comparison
is false. -/
theorem c8_coordinate_validation_amended :
    (∀ la lo : ℚ,
        validateRequest (some ⟨some ⟨JSField.number (JSNumber.fin la),
            JSField.number (JSNumber.fin lo)⟩⟩) = true ↔
          (-90 ≤ la ∧ la ≤ 90 ∧ -180 ≤ lo ∧ lo ≤ 180))
  ∧ validateRequest (some ⟨some ⟨JSField.number (JSNumber.fin (900001/10000)),
      JSField.number (JSNumber.fin 0)⟩⟩) = false
  ∧ validateRequest (some ⟨some ⟨JSField.number (JSNumber.fin 90),
      JSField.number (JSNumber.fin 180)⟩⟩) = true
  ∧ validateRequest (some ⟨none⟩) = false
  ∧ validateRequest none = false
  ∧ (∀ f, validateRequest (some ⟨some ⟨JSField.notNumber, f⟩⟩) = false)
  ∧ (∀ f, validateRequest (some ⟨some ⟨f, JSField.notNumber⟩⟩) = false)
  ∧ validateRequest nanBody = true := by
  refine ⟨?_, ?_, ?_, rfl, rfl, ?_, ?_, ?_⟩
  · intro la lo
    rw [validateRequest_fin]
    simp only [Bool.and_eq_true, Bool.not_eq_true', Bool.or_eq_false_iff,
      decide_eq_false_iff_not, not_lt]
    constructor
    · rintro ⟨⟨ha, hb⟩, hc, hd⟩
      exact ⟨ha, hb, hc, hd⟩
    · rintro ⟨ha, hb, hc, hd⟩
      exact ⟨⟨ha, hb⟩, hc, hd⟩
  · rw [validateRequest_fin]
    norm_num
  · rw [validateRequest_fin]
    norm_num
  · intro f; cases f <;> rfl
  · intro f; cases f <;> rfl
  · norm_num [validateRequest, nanBody, jsLt, jsGt]

/-- C9 counterexample: on an empty tag list getPrimaryPlaceType returns the
string establishment, not the string general the claim states. -/
theorem c9_counterexample_empty_tags :
    getPrimaryPlaceType [] = "establishment" ∧ getPrimaryPlaceType [] ≠ "general" := by
  refine ⟨rfl, ?_⟩
  intro h
  exact absurd h (by decide)

/-- C9 amended: getPrimaryPlaceType returns the first entry of the fixed
ordered priority list occurring among the tags; when none occurs it returns
the first tag (falling back to establishment when that tag is the empty
string); and on an empty tag list it returns establishment, not general. -/
theorem c9_primary_category_amended :
    (∀ ts t, t ∈ primaryTypesList → t ∈ ts →
        (∀ u, u ∈ primaryTypesList → u ∈ ts →
          primaryTypesList.indexOf t ≤ primaryTypesList.indexOf u) →
        getPrimaryPlaceType ts = t)
  ∧ (∀ hd tl, (∀ t, t ∈ primaryTypesList → t ∉ hd :: tl) → hd ≠ "" →
        getPrimaryPlaceType (hd :: tl) = hd)
  ∧ getPrimaryPlaceType [] = "establishment" := by
  refine ⟨?_, ?_, rfl⟩
  · intro ts t htl hts hmin
    unfold getPrimaryPlaceType
    rw [firstMatching_eq_of_first htl hts hmin]
  · intro hd tl hnone hhd
    unfold getPrimaryPlaceType
    rw [firstMatching_eq_none hnone]
    simp [hhd]

/-- C9 amended, witness: among the tags cafe and museum, museum is the
earlier entry of the priority list and is returned. -/
theorem c9_primary_category_amended_witness :
    getPrimaryPlaceType ["cafe", "museum"] = "museum" :=
  c9_primary_category_amended.1 ["cafe", "museum"] "museum" (by decide) (by decide)
    (by decide)

/-- C4 counterexample: the service-level save does not read the stored
record; saving an update that carries only an age group spreads the DEFAULT
record into the write, so a user whose stored interests are culture ends up
with the default interest list in the store. -/
theorem c4_counterexample_save_resets_interests :
    exRecord.interests = ["culture"]
  ∧ (storeAfterSet (some exRecord)
        (saveUserPreferences 0 "u" (ageOnlyUpdate "senior") 5)).map
      Preferences.interests = some ["restaurant", "tourist_attraction", "shopping_mall"]
  ∧ some ["restaurant", "tourist_attraction", "shopping_mall"] ≠
      some exRecord.interests := by
  refine ⟨rfl, rfl, ?_⟩
  intro h
  exact absurd h (by decide)

/-- C4 amended: through the PUT update flow, which fetches the existing
record and spreads the partial update over it before saving, an update
carrying only an age group leaves every other stored field (interests
included) unchanged and updates exactly ageGroup and updatedAt, in the
returned record and in the store alike; the bare saveUserPreferences
instead merges the update over the default record. -/
theorem c4_partial_update_amended (t0 now1 now2 : ℕ) (uid g : String)
    (s : Preferences) (h : s.userId = some uid) :
    updateUserPreferences t0 uid (some s) (ageOnlyUpdate g) now1 now2 =
      ({ s with ageGroup := g, updatedAt := now2 },
        some { s with ageGroup := g, updatedAt := now2 }) := by
  obtain ⟨i, ag, act, pe, pr, tp, gs, an, ca, ua, ui, mr⟩ := s
  simp only at h
  subst h
  cases mr <;>
    simp [updateUserPreferences, getUserPreferences, mergeOver, toUpdate,
      saveUserPreferences, storeAfterSet, ageOnlyUpdate, defaultPreferences]

/-- C4 amended, witness: updating the concrete stored record with only the
age group senior changes exactly ageGroup and updatedAt. -/
theorem c4_partial_update_amended_witness :
    updateUserPreferences 0 "u" (some exRecord) (ageOnlyUpdate "senior") 3 4 =
      ({ exRecord with ageGroup := "senior", updatedAt := 4 },
        some { exRecord with ageGroup := "senior", updatedAt := 4 }) :=
  c4_partial_update_amended 0 3 4 "u" "senior" exRecord rfl

/-- C5: the cache lookup returns the stored payload exactly when the entry
exists and its age is at most the TTL; an entry past the TTL is deleted and
nothing is returned; a broken store yields nothing instead of raising; and a
lookup immediately after a write returns the written payload. -/
theorem c5_cache_get_ttl_roundtrip {α : Type} (ttlHours : ℕ) (st : CacheStore α)
    (key : String) (now : ℤ) (v : α) :
    (st.broken = false →
      ∀ e, findEntry st key = some e →
        (now - e.cachedAt ≤ cacheMaxAgeMs ttlHours →
          getCachedAreaData ttlHours st key now = (some e.areaData, st))
        ∧ (cacheMaxAgeMs ttlHours < now - e.cachedAt →
          getCachedAreaData ttlHours st key now = (none, eraseEntry st key)))
  ∧ (st.broken = false → findEntry st key = none →
      getCachedAreaData ttlHours st key now = (none, st))
  ∧ (st.broken = true → getCachedAreaData ttlHours st key now = (none, st))
  ∧ (st.broken = false →
      ((∃ p, (getCachedAreaData ttlHours st key now).1 = some p) ↔
        ∃ e, findEntry st key = some e ∧ now - e.cachedAt ≤ cacheMaxAgeMs ttlHours))
  ∧ (st.broken = false →
      getCachedAreaData ttlHours (cacheAreaData st key v now) key now =
        (some v, cacheAreaData st key v now)) := by
  refine ⟨?_, ?_, ?_, ?_, ?_⟩
  · intro hb e he
    constructor
    · intro hage
      simp [getCachedAreaData, hb, he, not_lt.mpr hage]
    · intro hage
      simp [getCachedAreaData, hb, he, hage]
  · intro hb he
    simp [getCachedAreaData, hb, he]
  · intro hb
    simp [getCachedAreaData, hb]
  · intro hb
    constructor
    · rintro ⟨p, hp⟩
      rcases hfe : findEntry st key with _ | e
      · simp [getCachedAreaData, hb, hfe] at hp
      · by_cases hage : cacheMaxAgeMs ttlHours < now - e.cachedAt
        · simp [getCachedAreaData, hb, hfe, hage] at hp
        · exact ⟨e, by simp [hfe], not_lt.mp hage⟩
    · rintro ⟨e, he, hage⟩
      exact ⟨e.areaData, by simp [getCachedAreaData, hb, he, not_lt.mpr hage]⟩
  · intro hb
    simp [getCachedAreaData, cacheAreaData, hb, findEntry]
    unfold cacheMaxAgeMs
    positivity

/-- C6: the area bundle is assembled from the settled outcomes of the five
concurrent category searches and never fails as a whole; a failed category
contributes the empty list, a successful one its first 10 provider results
in provider order, so every category list has at most 10 entries. -/
theorem c6_area_bundle_partial_failure :
    (∀ (coords : ℚ × ℚ) (radius : ℕ)
        (r1 r2 r3 r4 r5 : Except String (List Place)),
        ∃ b : AreaBundle,
          getAreaInsights coords radius r1 r2 r3 r4 r5 = Except.ok b ∧
          b.landmarks = processResult r1 ∧ b.restaurants = processResult r2 ∧
          b.attractions = processResult r3 ∧ b.entertainment = processResult r4 ∧
          b.shopping = processResult r5)
  ∧ (∀ e : String, processResult (Except.error e) = ([] : List Place))
  ∧ (∀ l : List Place, processResult (Except.ok l) = l.take 10)
  ∧ (∀ r : Except String (List Place), (processResult r).length ≤ 10) := by
  refine ⟨?_, fun e => rfl, fun l => rfl, ?_⟩
  · intro coords radius r1 r2 r3 r4 r5
    exact ⟨_, rfl, rfl, rfl, rfl, rfl, rfl⟩
  · intro r
    cases r with
    | ok l =>
      simp only [processResult, List.length_take]
      exact min_le_left _ _
    | error e =>
      simp [processResult]

/-- C10: the synthetic hourly activity curve has exactly 24 entries, hours 0
through 23 in order, and every activity level lies between 10 and 100. -/
theorem c10_hourly_activity_curve (places : List Place) :
    (generateHourlyActivity places).length = 24
  ∧ (generateHourlyActivity places).map HourActivity.hour = List.range 24
  ∧ ∀ e ∈ generateHourlyActivity places,
      10 ≤ e.activityLevel ∧ e.activityLevel ≤ 100 := by
  refine ⟨by simp [generateHourlyActivity], ?_, ?_⟩
  · simp [generateHourlyActivity, List.map_map]
    exact List.map_id _
  · intro e he
    simp only [generateHourlyActivity, List.mem_map, List.mem_range] at he
    obtain ⟨h, _, rfl⟩ := he
    exact ⟨le_min (by norm_num) (le_max_left _ _), min_le_left _ _⟩

end AreaInsights
